import Mathlib

/-!
Verification of the GeminiApp request/upload/retry client
(src/src/GeminiApp.js) against its natural-language specification.

The JavaScript source is shallowly embedded: each class method that the
claims reference becomes an executable Lean definition over explicit
data; host builtins (UrlFetchApp.fetch, JSON.parse, DriveApp, the Files
API) are passed in as oracle parameters, and the blocking
Utilities.sleep calls are recorded as a list of millisecond delays.
-/

set_option maxHeartbeats 1000000

-- ============================================================================
-- JSON values (results of the host JSON.parse builtin)
-- ============================================================================

/-- A JavaScript JSON value, as produced by the host JSON.parse.
    Numeric payloads are irrelevant to every claim, so numbers are
    carried as integers. -/
inductive JsValue where
  | jnull
  | jbool (b : Bool)
  | jnum (n : Int)
  | jstr (s : String)
  | jarr (elems : List JsValue)
  | jobj (fields : List (String × JsValue))
deriving Repr

/-- Field lookup on a JSON object (`obj.key`, undefined otherwise). -/
def objField : JsValue → String → Option JsValue
  | .jobj fields, key => (fields.find? (fun f => f.1 == key)).map (fun f => f.2)
  | _, _ => none

/-- String payload of a JSON value (`undefined` for non-strings; the
    modelled API error bodies carry string messages). -/
def jsStr? : JsValue → Option String
  | .jstr s => some s
  | _ => none

/-- The JavaScript `x || d` idiom on an optional string: the default is
    used when the value is absent or the empty string (both falsy). -/
def jsOrElse (o : Option String) (d : String) : String :=
  match o with
  | none => d
  | some s => if s = "" then d else s

/-- The JavaScript `text.substring(0, n)` truncation. -/
def jsSubstring (s : String) (n : Nat) : String :=
  ⟨s.toList.take n⟩

-- ============================================================================
-- Error classes (GeminiAppError hierarchy, src/src/GeminiApp.js lines 97-124)
-- ============================================================================

/-- Errors raised by the client: `GeminiAppApiError (message, statusCode)`,
    `GeminiAppValidationError (message)`, and a raw JavaScript runtime
    exception for host-level failures. -/
inductive GeminiError where
  | apiError (message : String) (statusCode : Nat)
  | validationError (message : String)
  | jsException (message : String)
deriving Repr, DecidableEq

/-- The `.message` property of a thrown error. -/
def errMessage : GeminiError → String
  | .apiError m _ => m
  | .validationError m => m
  | .jsException m => m

-- ============================================================================
-- Retry transport (_GeminiAppFileManager._makeRequestWithRetry, lines 657-696)
-- ============================================================================

/-- Outcome of one `UrlFetchApp.fetch` call: an HTTP response, or a
    thrown transport exception. -/
inductive FetchOutcome where
  | response (statusCode : Nat) (body : String)
  | exception (message : String)
deriving Repr, DecidableEq

/-- An HTTP response object (`getResponseCode()` / `getContentText()`). -/
structure HttpResponse where
  statusCode : Nat
  body : String
deriving Repr, DecidableEq

/-- One complete run of a retry loop: what it returned or threw, how
    many fetch attempts it made, and the sleeps (in ms) it performed. -/
structure RetryRun where
  result : Except GeminiError HttpResponse
  attempts : Nat
  sleeps : List Nat
deriving Repr

/-- Body of the retry loop in `_makeRequestWithRetry`.  `fetch i` is the
    outcome of `UrlFetchApp.fetch` on the i-th attempt; `fuel` is the
    number of loop iterations left, `attempt` the loop counter, `le` the
    message of `lastError`. -/
def mrwrAux (fetch : Nat → FetchOutcome) (maxRetries : Nat) :
    Nat → Nat → Option String → RetryRun
  | 0, _, le =>
    ⟨.error (.apiError ("Request failed after " ++ toString maxRetries
        ++ " retries: " ++ jsOrElse le "Unknown error") 0), 0, []⟩
  | fuel + 1, attempt, _le =>
    match fetch attempt with
    | .response statusCode body =>
      if 200 ≤ statusCode ∧ statusCode < 300 then
        ⟨.ok ⟨statusCode, body⟩, 1, []⟩
      else if statusCode = 429 ∨ 500 ≤ statusCode then
        let r := mrwrAux fetch maxRetries fuel (attempt + 1)
          (some ("HTTP " ++ toString statusCode ++ ": " ++ body))
        ⟨r.result, r.attempts + 1, 2 ^ attempt * 1000 :: r.sleeps⟩
      else
        ⟨.ok ⟨statusCode, body⟩, 1, []⟩
    | .exception message =>
      let r := mrwrAux fetch maxRetries fuel (attempt + 1) (some message)
      ⟨r.result, r.attempts + 1, 2 ^ attempt * 1000 :: r.sleeps⟩

/-- `_GeminiAppFileManager._makeRequestWithRetry(url, options, maxRetries = 5)`:
    non-2xx non-retryable responses are returned to the caller, retryable
    ones (429 or 5xx) and transport exceptions are retried with
    exponential backoff. -/
def makeRequestWithRetry (fetch : Nat → FetchOutcome) (maxRetries : Nat := 5) :
    RetryRun :=
  mrwrAux fetch maxRetries maxRetries 0 none

-- ============================================================================
-- Generation-request transport (_GeminiApp._makeRequest, lines 1347-1424)
-- ============================================================================

/-- One complete run of `_makeRequest`: the parsed JSON body it returned
    or the error it threw, the attempts made, and the sleeps performed. -/
structure MakeRequestRun where
  result : Except GeminiError JsValue
  attempts : Nat
  sleeps : List Nat
deriving Repr

/-- `errorData.error?.message || 'Unknown error'` after
    `errorData = JSON.parse(responseText)` with the
    `\x7b error: \x7b message: responseText \x7d \x7d` fallback when the body is
    not JSON.  (The modelled error bodies carry string messages.) -/
def errMsgOf (parse : String → Except String JsValue) (body : String) : String :=
  match parse body with
  | .ok data =>
    jsOrElse (((objField data "error").bind (fun e => objField e "message")).bind jsStr?)
      "Unknown error"
  | .error _ => jsOrElse (some body) "Unknown error"

/-- Body of the retry loop in `_GeminiApp._makeRequest`.  `parse` is the
    host JSON.parse (failure carries the exception message); a parse
    failure of a 200 body is a thrown SyntaxError, caught by the catch
    block and retried like a network error, exactly as in the source. -/
def makeRequestAux (fetch : Nat → FetchOutcome)
    (parse : String → Except String JsValue) (maxRetries : Nat) :
    Nat → Nat → Option String → MakeRequestRun
  | 0, _, le =>
    ⟨.error (.apiError ("Request failed after " ++ toString maxRetries
        ++ " retries: " ++ jsOrElse le "Unknown error"
        ++ ". This could be due to rate limits or service outages. Please try again later.") 0),
      0, []⟩
  | fuel + 1, attempt, _le =>
    match fetch attempt with
    | .response statusCode body =>
      if statusCode = 200 then
        match parse body with
        | .ok v => ⟨.ok v, 1, []⟩
        | .error em =>
          let r := makeRequestAux fetch parse maxRetries fuel (attempt + 1) (some em)
          ⟨r.result, r.attempts + 1, 2 ^ attempt * 1000 :: r.sleeps⟩
      else
        let errorMessage := errMsgOf parse body
        if statusCode = 429 ∨ 500 ≤ statusCode then
          let r := makeRequestAux fetch parse maxRetries fuel (attempt + 1)
            (some ("API request failed (" ++ toString statusCode ++ "): " ++ errorMessage))
          ⟨r.result, r.attempts + 1, 2 ^ attempt * 1000 :: r.sleeps⟩
        else
          ⟨.error (.apiError ("API request failed (" ++ toString statusCode ++ "): "
              ++ errorMessage
              ++ ". Please check your request parameters and API key.") statusCode),
            1, []⟩
    | .exception em =>
      let r := makeRequestAux fetch parse maxRetries fuel (attempt + 1) (some em)
      ⟨r.result, r.attempts + 1, 2 ^ attempt * 1000 :: r.sleeps⟩

/-- `_GeminiApp._makeRequest` with its hardcoded `maxRetries = 5`. -/
def makeRequest (fetch : Nat → FetchOutcome)
    (parse : String → Except String JsValue) : MakeRequestRun :=
  makeRequestAux fetch parse 5 5 0 none

-- ============================================================================
-- Response formatting (_GeminiApp._formatResponse, lines 1430-1486)
-- ============================================================================

/-- A single content part (text, inline base64 data, or a durable file
    reference), the closed set of shapes the source constructs. -/
inductive ContentPart where
  | textPart (text : String)
  | inlineData (mimeType : String) (data : String)
  | fileData (mimeType : String) (fileUri : String)
deriving Repr, DecidableEq

/-- A role-tagged content object `\x7b role, parts \x7d`. -/
structure Content where
  role : String
  parts : List ContentPart
deriving Repr, DecidableEq

/-- `promptFeedback` of a generation response. -/
structure PromptFeedback where
  blockReason : Option String
  blockReasonMessage : Option String
deriving Repr, DecidableEq

/-- One candidate of a generation response. -/
structure Candidate where
  content : Option Content
  finishReason : Option String
  finishMessage : Option String
deriving Repr, DecidableEq

/-- A generation response as returned by the remote endpoint. -/
structure GenResponse where
  promptFeedback : Option PromptFeedback
  candidates : Option (List Candidate)
deriving Repr, DecidableEq

/-- The value a generation call hands back to the caller: a plain string
    when no schema was supplied, a parsed JSON value when one was. -/
inductive GenValue where
  | text (s : String)
  | structured (v : JsValue)
deriving Repr

/-- The truthy block reason of `response.promptFeedback?.blockReason`
    (absent and empty-string reasons are falsy). -/
def blockReasonOf (response : GenResponse) : Option String :=
  match response.promptFeedback with
  | some pf =>
    match pf.blockReason with
    | some br => if br = "" then none else some br
    | none => none
  | none => none

/-- The text-concatenation loop: `if (part.text) text += part.text`. -/
def concatParts (parts : List ContentPart) : String :=
  parts.foldl (fun acc p =>
    match p with
    | .textPart s => if s = "" then acc else acc ++ s
    | _ => acc) ""

/-- Concatenated text of a candidate (`candidate.content?.parts || []`). -/
def candidateText (candidate : Candidate) : String :=
  concatParts (match candidate.content with
    | some c => c.parts
    | none => [])

/-- Tail of `_formatResponse` (lines 1462-1486): extract the text and
    either return it or parse it against the supplied schema. -/
def formatCandidateText (parse : String → Except String JsValue)
    (candidate : Candidate) (schema : Option JsValue) :
    Except GeminiError GenValue :=
  let text := candidateText candidate
  match schema with
  | some _ =>
    match parse text with
    | .ok v => .ok (.structured v)
    | .error em =>
      .error (.apiError ("Failed to parse JSON response: " ++ em
          ++ ". Response text: " ++ jsSubstring text 200 ++ "...") 500)
  | none => .ok (.text text)

/-- `_GeminiApp._formatResponse(response, schema)`. -/
def formatResponse (parse : String → Except String JsValue)
    (response : GenResponse) (schema : Option JsValue) :
    Except GeminiError GenValue :=
  match blockReasonOf response with
  | some br =>
    .error (.apiError ("Response was blocked: " ++ br ++ ". "
        ++ jsOrElse (response.promptFeedback.bind (fun pf => pf.blockReasonMessage)) "") 400)
  | none =>
    match response.candidates with
    | some (candidate :: _) =>
      match candidate.finishReason with
      | some fr =>
        if fr ≠ "" ∧ ¬ (fr = "STOP" ∨ fr = "MAX_TOKENS" ∨ fr = "FINISH_REASON_UNSPECIFIED") then
          .error (.apiError ("Response generation stopped: " ++ fr ++ ". "
              ++ jsOrElse candidate.finishMessage "") 400)
        else formatCandidateText parse candidate schema
      | none => formatCandidateText parse candidate schema
    | _ =>
      .error (.apiError
        "No response candidates returned. The request may have been blocked or invalid."
        400)

/-- `candidate.finishReason` values the formatter accepts. -/
def finishAcceptable (candidate : Candidate) : Bool :=
  match candidate.finishReason with
  | some fr =>
    fr == "" || fr == "STOP" || fr == "MAX_TOKENS" || fr == "FINISH_REASON_UNSPECIFIED"
  | none => true

-- ============================================================================
-- Chat session (_GeminiAppChat, src/src/GeminiApp.js lines 706-882)
-- ============================================================================

/-- `request.systemInstruction = \x7b parts: [\x7b text: ... \x7d] \x7d` (no role field). -/
structure SystemInstruction where
  parts : List ContentPart
deriving Repr, DecidableEq

/-- `generationConfig` of a generation request. -/
structure GenerationConfig where
  responseSchema : Option JsValue := none
  responseMimeType : Option String := none
deriving Repr

/-- The body posted to `models/...:generateContent`. -/
structure RequestBody where
  contents : List Content
  generationConfig : GenerationConfig
  systemInstruction : Option SystemInstruction := none
deriving Repr

/-- State of a `_GeminiAppChat` instance. -/
structure ChatState where
  history : List Content
  systemInstruction : Option String
deriving Repr, DecidableEq

/-- `_GeminiApp.startChat(options)` / the `_GeminiAppChat` constructor:
    `this.history = options.history || []`. -/
def startChat (history : Option (List Content)) (systemInstruction : Option String) :
    ChatState :=
  ⟨history.getD [], systemInstruction⟩

/-- `_GeminiAppChat.getHistory()` (returns `this.history` itself). -/
def getHistory (st : ChatState) : List Content :=
  st.history

/-- The request `_sendMessage` builds from the (already user-extended)
    history, the session's system instruction, and the per-call schema. -/
def buildChatRequest (history : List Content) (systemInstruction : Option String)
    (schema : Option JsValue) : RequestBody :=
  { contents := history
    generationConfig :=
      match schema with
      | some s => { responseSchema := some s, responseMimeType := some "application/json" }
      | none => {}
    systemInstruction :=
      match systemInstruction with
      | some si => if si = "" then none else some ⟨[.textPart si]⟩
      | none => none }

/-- `_GeminiAppChat._sendMessage(parts, options)`.  `net` is the outcome
    of `this.ai._makeRequest('generateContent', request)` (already parsed
    or thrown).  Returns the new session state and the value returned or
    error thrown. -/
def chatSendMessage (parse : String → Except String JsValue)
    (net : RequestBody → Except GeminiError GenResponse)
    (st : ChatState) (parts : List ContentPart) (schema : Option JsValue) :
    ChatState × Except GeminiError GenValue :=
  let st1 : ChatState := { st with history := st.history ++ [⟨"user", parts⟩] }
  let request := buildChatRequest st1.history st.systemInstruction schema
  match net request with
  | .error e => (st1, .error e)
  | .ok response =>
    let st2 : ChatState :=
      match response.candidates with
      | some (c :: _) =>
        match c.content with
        | some content => { st1 with history := st1.history ++ [content] }
        | none => st1
      | _ => st1
    (st2, formatResponse parse response schema)

/-- One queued `sendMessage` call: the user parts, the per-call schema
    and the transport behaviour during that call. -/
structure ChatCall where
  parts : List ContentPart
  schema : Option JsValue
  net : RequestBody → Except GeminiError GenResponse

/-- A sequence of `sendMessage` calls on one session. -/
def runChat (parse : String → Except String JsValue) (st : ChatState) :
    List ChatCall → ChatState × List (Except GeminiError GenValue)
  | [] => (st, [])
  | call :: rest =>
    let step := chatSendMessage parse call.net st call.parts call.schema
    let tail := runChat parse step.1 rest
    (tail.1, step.2 :: tail.2)

/-- The model turn `_sendMessage` pushes: `response.candidates[0].content`
    when the transport returned a response whose first candidate carries
    content, nothing otherwise. -/
def modelAppend : Except GeminiError GenResponse → List Content
  | .ok r =>
    match r.candidates with
    | some (c :: _) =>
      match c.content with
      | some content => [content]
      | none => []
    | _ => []
  | .error _ => []

/-- Does the transport outcome carry first-candidate content tagged with
    role `model`?  (What every successful well-formed exchange returns.) -/
def respModelContent : Except GeminiError GenResponse → Bool
  | .ok r =>
    match r.candidates with
    | some (c :: _) =>
      match c.content with
      | some content => content.role == "model"
      | none => false
    | _ => false
  | .error _ => false

/-- The role sequence user, model, user, model, ... of n exchanges. -/
def userModelPattern : Nat → List String
  | 0 => []
  | n + 1 => "user" :: "model" :: userModelPattern n

-- ============================================================================
-- Part resolver (_GeminiApp._prepareFilePart, lines 1253-1341)
-- ============================================================================

/-- The input shapes `_prepareFilePart` dispatches on: a pre-uploaded
    `\x7b uri, mimeType \x7d` object, a string (URL or bare file id), or a
    local Drive file / Blob whose bytes the host has already base64
    encoded. -/
inductive FileInput where
  | uriObject (uri : String) (mimeType : String)
  | str (s : String)
  | blob (contentType : String) (base64Data : String)
deriving Repr, DecidableEq

/-- Network / Drive calls the part resolver can make. -/
inductive NetCall where
  | driveUpload (fileId : String)
  | urlUpload (url : String) (mimeType : String)
deriving Repr, DecidableEq

/-- An uploaded-file record as returned by the Files API. -/
structure UploadedFileRec where
  uri : String
  mimeType : String
deriving Repr, DecidableEq

/-- External collaborators of the part resolver: uploading a Drive file
    by id (DriveApp.getFileById + fileManager.uploadDriveFile) and
    uploading a remote URL (fileManager.uploadFromUrl). -/
structure PartEnv where
  uploadDriveFileById : String → Except GeminiError UploadedFileRec
  uploadFromUrl : String → String → Except GeminiError UploadedFileRec

/-- `/^[a-zA-Z0-9_-]+$/.test(file) && !file.includes('/') && !file.includes('.')`. -/
def isPlainFileId (s : String) : Bool :=
  (s.length != 0 && s.toList.all (fun c => c.isAlphanum || c == '_' || c == '-'))
    && !(s.toList.contains '/') && !(s.toList.contains '.')

/-- Does `haystack` start with `needle`? -/
def startsWithChars : List Char → List Char → Bool
  | [], _ => true
  | _ :: _, [] => false
  | n :: ns, h :: hs => n == h && startsWithChars ns hs

/-- Does `needle` occur contiguously in `haystack`? -/
def includesChars (needle : List Char) : List Char → Bool
  | [] => startsWithChars needle []
  | h :: hs => startsWithChars needle (h :: hs) || includesChars needle hs

/-- JavaScript `haystack.includes(needle)`. -/
def strIncludes (haystack needle : String) : Bool :=
  includesChars needle.toList haystack.toList

/-- The Google Workspace URL test of `_prepareFilePart`. -/
def isWorkspaceUrl (s : String) : Bool :=
  strIncludes s "docs.google.com/" || strIncludes s "sheets.google.com/"
    || strIncludes s "slides.google.com/" || strIncludes s "drive.google.com/"

/-- An identifier character of the `/[-\w]\x7b25,\x7d/` extraction regex. -/
def isIdChar (c : Char) : Bool :=
  c.isAlphanum || c == '_' || c == '-'

/-- Leading run of identifier characters and the remainder. -/
def takeIdRun : List Char → List Char × List Char
  | [] => ([], [])
  | c :: cs =>
    if isIdChar c then
      let r := takeIdRun cs
      (c :: r.1, r.2)
    else ([], c :: cs)

/-- `file.match(/[-\w]\x7b25,\x7d/)`: the leftmost run of at least 25
    identifier characters, if any.  The fuel argument only bounds the
    scan; `cs.length` is always enough (see `takeIdRun_snd_length`). -/
def findIdRunAux : Nat → List Char → Option (List Char)
  | 0, _ => none
  | _ + 1, [] => none
  | fuel + 1, c :: cs =>
    if isIdChar c then
      let r := takeIdRun cs
      if 25 ≤ (c :: r.1).length then some (c :: r.1) else findIdRunAux fuel r.2
    else findIdRunAux fuel cs

/-- File-id extraction from a Google Workspace URL. -/
def extractWorkspaceFileId (s : String) : Option String :=
  (findIdRunAux s.toList.length s.toList).map (fun cs => ⟨cs⟩)

/-- The validation-error message raised for a plain URL without a MIME type. -/
def mimeRequiredMsg : String :=
  "mimeType is required when providing a URL or file ID string. Example: ai.promptWithFile(text, url, \x7b mimeType: \"audio/mpeg\" \x7d)"

/-- The wrapped 403 message of the Google-Workspace branch. -/
def driveAccessErrMsg (file originalError : String) : String :=
  "Cannot access Google Drive file \x27" ++ file ++ "\x27. Please ensure:\n"
    ++ "1. You have permission to access the file\n"
    ++ "2. The file ID/URL is correct\n"
    ++ "3. The file hasn\x27t been deleted\n"
    ++ "Original error: " ++ originalError

/-- JavaScript falsiness of an optional string argument. -/
def jsFalsyStr (o : Option String) : Bool :=
  match o with
  | none => true
  | some s => s == ""

/-- `_GeminiApp._prepareFilePart(file, type, mimeType)`, returning the
    produced part (or thrown error) together with the Drive/network
    calls it performed, in order. -/
def prepareFilePart (env : PartEnv) (file : FileInput) (mimeType : Option String) :
    Except GeminiError ContentPart × List NetCall :=
  match file with
  | .uriObject uri mt =>
    if uri ≠ "" ∧ mt ≠ "" then
      (.ok (.fileData mt uri), [])
    else
      -- a \x7b uri, mimeType \x7d object with a falsy field falls through to the
      -- blob branch, where blob.getBytes() is not a function
      (.error (.jsException "TypeError: blob.getBytes is not a function"), [])
  | .str s =>
    if isPlainFileId s || isWorkspaceUrl s then
      if isPlainFileId s then
        match env.uploadDriveFileById s with
        | .ok up => (.ok (.fileData up.mimeType up.uri), [.driveUpload s])
        | .error e =>
          (.error (.apiError (driveAccessErrMsg s (errMessage e)) 403), [.driveUpload s])
      else
        match extractWorkspaceFileId s with
        | some fid =>
          match env.uploadDriveFileById fid with
          | .ok up => (.ok (.fileData up.mimeType up.uri), [.driveUpload fid])
          | .error e =>
            (.error (.apiError (driveAccessErrMsg s (errMessage e)) 403), [.driveUpload fid])
        | none =>
          (.error (.apiError
            (driveAccessErrMsg s "Could not extract file ID from Google Workspace URL") 403), [])
    else if jsFalsyStr mimeType then
      (.error (.validationError mimeRequiredMsg), [])
    else
      match env.uploadFromUrl s (mimeType.getD "") with
      | .ok up => (.ok (.fileData up.mimeType up.uri), [.urlUpload s (mimeType.getD "")])
      | .error e => (.error e, [.urlUpload s (mimeType.getD "")])
  | .blob contentType base64Data =>
    (.ok (.inlineData contentType base64Data), [])

-- ============================================================================
-- File deletion (_GeminiAppFileManager.deleteFile, lines 479-528)
-- ============================================================================

/-- The object `deleteFile` returns: `\x7b success: true \x7d`, with
    `alreadyDeleted: true` when the remote service answered 404. -/
structure DeleteOutcome where
  success : Bool
  alreadyDeleted : Bool
deriving Repr, DecidableEq

/-- `_GeminiAppFileManager.deleteFile(fileName)`, with `fetch` the
    outcome of the DELETE call. -/
def deleteFile (fetch : FetchOutcome) (parse : String → Except String JsValue) :
    Except GeminiError DeleteOutcome :=
  match fetch with
  | .response statusCode body =>
    if statusCode = 200 ∨ statusCode = 204 then
      .ok ⟨true, false⟩
    else if statusCode = 404 then
      .ok ⟨true, true⟩
    else
      let errorMsg :=
        match parse body with
        | .ok data =>
          jsOrElse (((objField data "error").bind (fun e => objField e "message")).bind jsStr?)
            "Unknown error"
        | .error _ => body
      .error (.apiError ("Failed to delete file: " ++ errorMsg) statusCode)
  | .exception message =>
    .error (.apiError ("Delete request failed: " ++ message) 0)

-- ============================================================================
-- Chat-session method inventory (for the clearHistory claim)
-- ============================================================================

/-- The methods the implementation class `_GeminiAppChat`
    (src/src/GeminiApp.js lines 706-882) actually defines. -/
def geminiAppChatMethods : List String :=
  ["constructor", "sendMessage", "sendMessageWithImage", "sendMessageWithFile",
   "getHistory", "_sendMessage"]

/-- The chat-session interface the library declares for itself: the
    `GeminiAppChatSession` interface cited by `_GeminiApp` via
    `@implements \x7bGeminiAppInstance\x7d`, `types/stvpsai.d.ts` line 190, and
    the published autocomplete stub class `ChatSession`
    (src/src/StvpsAi-autocomplete.js lines 104-141). -/
def declaredChatSessionMethods : List String :=
  ["sendMessage", "sendMessageWithImage", "sendMessageWithFile",
   "getHistory", "clearHistory"]

-- ============================================================================
-- Concrete instances used by the witness and counterexample theorems
-- ============================================================================

/-- Concrete response used to witness C1. -/
def c1Response : GenResponse :=
  ⟨none, some [⟨some ⟨"model", [.textPart "\x7b\"colors\":[\"red\",\"blue\"]\x7d"]⟩,
    some "STOP", none⟩]⟩

/-- Concrete JSON.parse behaviour used to witness C1. -/
def c1Parse : String → Except String JsValue :=
  fun _ => .ok (.jobj [("colors", .jarr [.jstr "red", .jstr "blue"])])

/-- A well-formed exchange used to witness C2. -/
def c2Call : ChatCall :=
  ⟨[.textPart "hi"], none,
    fun _ => .ok ⟨none, some [⟨some ⟨"model", [.textPart "hello"]⟩, some "STOP", none⟩]⟩⟩

/-- The transport behaviour and JSON.parse of the C10 counterexample:
    the response carries model content whose text is not valid JSON. -/
def c10Response : GenResponse :=
  ⟨none, some [⟨some ⟨"model", [.textPart "not json"]⟩, some "STOP", none⟩]⟩

/-- The failed structured-output call of the C10 counterexample. -/
def c10Run : ChatState × Except GeminiError GenValue :=
  chatSendMessage (fun _ => .error "Unexpected token") (fun _ => .ok c10Response)
    (startChat none none) [.textPart "hi"] (some (.jobj []))

/-- A transport failure used to witness C10. -/
def c10ErrNet : RequestBody → Except GeminiError GenResponse :=
  fun _ => .error (.apiError "boom" 500)

-- ============================================================================
-- Helper lemmas
-- ============================================================================

theorem takeIdRun_snd_length : ∀ cs : List Char, (takeIdRun cs).2.length ≤ cs.length := by
  intro cs
  induction cs with
  | nil => simp [takeIdRun]
  | cons c cs ih =>
    simp only [takeIdRun]
    by_cases h : isIdChar c = true
    · simp [h]
      omega
    · simp [h]

theorem jsSubstring_length_le (s : String) (n : Nat) :
    (jsSubstring s n).length ≤ n := by
  have h : (jsSubstring s n).length = (s.toList.take n).length := rfl
  rw [h, List.length_take]
  exact min_le_left _ _

/-- With acceptable earlier checks, `_formatResponse` reaches the text
    extraction stage. -/
theorem formatResponse_reaches_text
    (parse : String → Except String JsValue) (r : GenResponse)
    (schema : Option JsValue) (c : Candidate) (rest : List Candidate)
    (hb : blockReasonOf r = none)
    (hc : r.candidates = some (c :: rest))
    (hf : finishAcceptable c = true) :
    formatResponse parse r schema = formatCandidateText parse c schema := by
  cases hfr : c.finishReason with
  | none => simp [formatResponse, hb, hc, hfr]
  | some fr =>
    have hok : fr = "" ∨ fr = "STOP" ∨ fr = "MAX_TOKENS" ∨ fr = "FINISH_REASON_UNSPECIFIED" := by
      have h := hf
      unfold finishAcceptable at h
      rw [hfr] at h
      simpa [or_assoc] using h
    have hneg : ¬ (fr ≠ "" ∧ ¬ (fr = "STOP" ∨ fr = "MAX_TOKENS" ∨ fr = "FINISH_REASON_UNSPECIFIED")) := by
      rcases hok with h | h | h | h <;> simp [h]
    simp only [formatResponse, hb, hc, hfr]
    rw [if_neg hneg]

-- ============================================================================
-- C1: schema-dependent response formatting
-- ============================================================================

/-- C1: for every generation response that passes the block, candidate
    and finish-reason checks: with a schema, the concatenated text of
    the first candidate is JSON-parsed and the parsed value is returned,
    and a parse failure raises an API error whose message embeds the
    (at most 200 character) truncated prefix of the offending text; with
    no schema the concatenated text is returned unchanged as a string,
    whatever the JSON parser would have said. -/
theorem formatResponse_schema_contract
    (parse : String → Except String JsValue) (r : GenResponse)
    (schema : JsValue) (c : Candidate) (rest : List Candidate)
    (hb : blockReasonOf r = none)
    (hc : r.candidates = some (c :: rest))
    (hf : finishAcceptable c = true) :
    (∀ v, parse (candidateText c) = .ok v →
      formatResponse parse r (some schema) = .ok (.structured v))
    ∧ (∀ em, parse (candidateText c) = .error em →
      formatResponse parse r (some schema) =
        .error (.apiError ("Failed to parse JSON response: " ++ em
          ++ ". Response text: " ++ jsSubstring (candidateText c) 200 ++ "...") 500)
      ∧ (jsSubstring (candidateText c) 200).length ≤ 200)
    ∧ (∀ parseOther : String → Except String JsValue,
      formatResponse parseOther r none = .ok (.text (candidateText c))) := by
  refine ⟨?_, ?_, ?_⟩
  · intro v hv
    rw [formatResponse_reaches_text parse r (some schema) c rest hb hc hf]
    simp [formatCandidateText, hv]
  · intro em hem
    refine ⟨?_, jsSubstring_length_le _ _⟩
    rw [formatResponse_reaches_text parse r (some schema) c rest hb hc hf]
    simp [formatCandidateText, hem]
  · intro parseOther
    rw [formatResponse_reaches_text parseOther r none c rest hb hc hf]
    simp [formatCandidateText]

/-- C1 witness: the schema round-trip example of the spec. -/
theorem formatResponse_schema_contract_witness :
    formatResponse c1Parse c1Response (some (.jobj [("type", .jstr "object")])) =
      .ok (.structured (.jobj [("colors", .jarr [.jstr "red", .jstr "blue"])])) :=
  (formatResponse_schema_contract c1Parse c1Response (.jobj [("type", .jstr "object")])
    ⟨some ⟨"model", [.textPart "\x7b\"colors\":[\"red\",\"blue\"]\x7d"]⟩, some "STOP", none⟩
    [] rfl rfl rfl).1 _ rfl

-- ============================================================================
-- C7: response interpretation order
-- ============================================================================

/-- C7: a blocked response raises an API error containing the block
    reason regardless of schema (and before the candidate check); an
    unblocked response without candidates raises the no-candidates API
    error; a bad finish reason on the first candidate raises an API
    error naming it; STOP, MAX_TOKENS and unspecified finish reasons are
    accepted and fall through to text extraction. -/
theorem formatResponse_error_order
    (parse : String → Except String JsValue) (r : GenResponse)
    (schema : Option JsValue) :
    (∀ br, blockReasonOf r = some br →
      formatResponse parse r schema =
        .error (.apiError ("Response was blocked: " ++ br ++ ". "
          ++ jsOrElse (r.promptFeedback.bind (fun pf => pf.blockReasonMessage)) "") 400)
      ∧ ∃ pre post, ("Response was blocked: " ++ br ++ ". "
          ++ jsOrElse (r.promptFeedback.bind (fun pf => pf.blockReasonMessage)) "")
          = pre ++ br ++ post)
    ∧ (blockReasonOf r = none → (r.candidates = none ∨ r.candidates = some []) →
      formatResponse parse r schema =
        .error (.apiError
          "No response candidates returned. The request may have been blocked or invalid." 400))
    ∧ (∀ c rest fr, blockReasonOf r = none → r.candidates = some (c :: rest) →
      c.finishReason = some fr → finishAcceptable c = false →
      formatResponse parse r schema =
        .error (.apiError ("Response generation stopped: " ++ fr ++ ". "
          ++ jsOrElse c.finishMessage "") 400))
    ∧ (∀ c rest, blockReasonOf r = none → r.candidates = some (c :: rest) →
      finishAcceptable c = true →
      formatResponse parse r schema = formatCandidateText parse c schema) := by
  refine ⟨?_, ?_, ?_, ?_⟩
  · intro br hbr
    constructor
    · simp [formatResponse, hbr]
    · refine ⟨"Response was blocked: ",
        ". " ++ jsOrElse (r.promptFeedback.bind (fun pf => pf.blockReasonMessage)) "", ?_⟩
      simp [String.append_assoc]
  · intro hb hcand
    rcases hcand with h | h <;> simp [formatResponse, hb, h]
  · intro c rest fr hb hc hfr hbad
    have hcond : fr ≠ "" ∧ ¬ (fr = "STOP" ∨ fr = "MAX_TOKENS" ∨ fr = "FINISH_REASON_UNSPECIFIED") := by
      unfold finishAcceptable at hbad
      rw [hfr] at hbad
      simp only [Bool.or_eq_false_iff, beq_eq_false_iff_ne, ne_eq] at hbad
      obtain ⟨⟨⟨h1, h2⟩, h3⟩, h4⟩ := hbad
      exact ⟨h1, by simp [h2, h3, h4]⟩
    simp [formatResponse, hb, hc, hfr, hcond]
  · exact fun c rest hb hc hf =>
      formatResponse_reaches_text parse r schema c rest hb hc hf

/-- C7 witness: a blocked response with no candidates at all still
    reports the block reason, under a schema. -/
theorem formatResponse_error_order_witness :
    formatResponse (fun _ => .error "u") ⟨some ⟨some "SAFETY", none⟩, none⟩
      (some (.jobj [])) =
      .error (.apiError "Response was blocked: SAFETY. " 400) :=
  ((formatResponse_error_order (fun _ => .error "u") ⟨some ⟨some "SAFETY", none⟩, none⟩
    (some (.jobj []))).1 "SAFETY" rfl).1

-- ============================================================================
-- C6: remote URL without a MIME type fails fast
-- ============================================================================

/-- C6: a string input that is neither a bare file id nor a Google
    Workspace URL and comes without a (truthy) caller MIME type makes
    `_prepareFilePart` raise the validation error with no Drive or
    network call performed. -/
theorem prepare_url_requires_mime (env : PartEnv) (s : String) (mimeType : Option String)
    (h1 : isPlainFileId s = false) (h2 : isWorkspaceUrl s = false)
    (h3 : jsFalsyStr mimeType = true) :
    prepareFilePart env (.str s) mimeType =
      (.error (.validationError mimeRequiredMsg), []) := by
  simp [prepareFilePart, h1, h2, h3]

/-- C6 witness: a plain https URL with no MIME type. -/
theorem prepare_url_requires_mime_witness :
    prepareFilePart
      ⟨fun _ => .error (.apiError "unused" 0), fun _ _ => .error (.apiError "unused" 0)⟩
      (.str "https://example.com/audio.mp3") none =
      (.error (.validationError mimeRequiredMsg), []) :=
  prepare_url_requires_mime
    ⟨fun _ => .error (.apiError "unused" 0), fun _ _ => .error (.apiError "unused" 0)⟩
    "https://example.com/audio.mp3" none (by decide) (by decide) rfl

-- ============================================================================
-- C8: deleteFile is idempotent on 404
-- ============================================================================

/-- C8: a 404 (unknown / already deleted file) makes `deleteFile` return
    success instead of raising, exactly as a 200 deletion of an existing
    file does (both report `success: true`). -/
theorem deleteFile_idempotent_404 (body body2 : String)
    (parse parse2 : String → Except String JsValue) :
    deleteFile (.response 404 body) parse = .ok ⟨true, true⟩
    ∧ deleteFile (.response 200 body2) parse2 = .ok ⟨true, false⟩
    ∧ (deleteFile (.response 404 body) parse).toOption.map (fun o => o.success) =
      (deleteFile (.response 200 body2) parse2).toOption.map (fun o => o.success) := by
  refine ⟨?_, ?_, ?_⟩ <;> simp [deleteFile, Except.toOption]

-- ============================================================================
-- C9: the declared clearHistory operation is absent from the implementation
-- ============================================================================

/-- C9 (code bug): the library declares `clearHistory` on its chat
    session interface, but the implementation class `_GeminiAppChat`
    defines no such method — calling it on a session throws a TypeError. -/
theorem clearHistory_missing_from_impl :
    "clearHistory" ∈ declaredChatSessionMethods
    ∧ "clearHistory" ∉ geminiAppChatMethods := by
  decide

-- ============================================================================
-- Retry transport lemmas
-- ============================================================================

theorem prefixed_ne_empty (s t : String) (hs : s.length ≠ 0) : s ++ t ≠ "" := by
  intro h
  have h0 : (s ++ t).length = 0 := by rw [h]; rfl
  rw [String.length_append] at h0
  omega

/-- Every sleep the file-manager retry loop performs at loop counter
    `a + i` lasts `2 ^ (a + i) * 1000` ms. -/
theorem mrwrAux_sleeps (fetch : Nat → FetchOutcome) (maxR : Nat) :
    ∀ fuel a le i d, (mrwrAux fetch maxR fuel a le).sleeps.get? i = some d →
      d = 2 ^ (a + i) * 1000 := by
  intro fuel
  induction fuel with
  | zero => intro a le i d h; simp [mrwrAux] at h
  | succ fuel ih =>
    intro a le i d h
    simp only [mrwrAux] at h
    split at h
    · -- response case
      split at h
      · simp at h
      · split at h
        · -- retryable branch: a sleep is recorded
          simp only [] at h
          cases i with
          | zero =>
            simp only [List.get?_cons_zero, Option.some.injEq] at h
            rw [Nat.add_zero]
            omega
          | succ i =>
            simp only [List.get?_cons_succ] at h
            have hd := ih (a + 1) _ i d h
            have hexp : a + 1 + i = a + (i + 1) := by omega
            rw [hd, hexp]
        · simp at h
    · -- exception case
      simp only [] at h
      cases i with
      | zero =>
        simp only [List.get?_cons_zero, Option.some.injEq] at h
        rw [Nat.add_zero]
        omega
      | succ i =>
        simp only [List.get?_cons_succ] at h
        have hd := ih (a + 1) _ i d h
        have hexp : a + 1 + i = a + (i + 1) := by omega
        rw [hd, hexp]

/-- Every sleep the generation retry loop performs at loop counter
    `a + i` lasts `2 ^ (a + i) * 1000` ms. -/
theorem makeRequestAux_sleeps (fetch : Nat → FetchOutcome)
    (parse : String → Except String JsValue) (maxR : Nat) :
    ∀ fuel a le i d, (makeRequestAux fetch parse maxR fuel a le).sleeps.get? i = some d →
      d = 2 ^ (a + i) * 1000 := by
  intro fuel
  induction fuel with
  | zero => intro a le i d h; simp [makeRequestAux] at h
  | succ fuel ih =>
    intro a le i d h
    simp only [makeRequestAux] at h
    split at h
    · -- response case
      split at h
      · -- 200: parse either returns (no sleep) or throws (one sleep then retry)
        split at h
        · simp at h
        · simp only [] at h
          cases i with
          | zero =>
            simp only [List.get?_cons_zero, Option.some.injEq] at h
            rw [Nat.add_zero]
            omega
          | succ i =>
            simp only [List.get?_cons_succ] at h
            have hd := ih (a + 1) _ i d h
            have hexp : a + 1 + i = a + (i + 1) := by omega
            rw [hd, hexp]
      · split at h
        · simp only [] at h
          cases i with
          | zero =>
            simp only [List.get?_cons_zero, Option.some.injEq] at h
            rw [Nat.add_zero]
            omega
          | succ i =>
            simp only [List.get?_cons_succ] at h
            have hd := ih (a + 1) _ i d h
            have hexp : a + 1 + i = a + (i + 1) := by omega
            rw [hd, hexp]
        · simp at h
    · -- exception case
      simp only [] at h
      cases i with
      | zero =>
        simp only [List.get?_cons_zero, Option.some.injEq] at h
        rw [Nat.add_zero]
        omega
      | succ i =>
        simp only [List.get?_cons_succ] at h
        have hd := ih (a + 1) _ i d h
        have hexp : a + 1 + i = a + (i + 1) := by omega
        rw [hd, hexp]

/-- Shifting one backoff step out of the sleep schedule. -/
theorem range_pow_shift (a fuel : Nat) :
    (2 : Nat) ^ a * 1000 :: (List.range fuel).map (fun k => 2 ^ (a + 1 + k) * 1000) =
      (List.range (fuel + 1)).map (fun k => 2 ^ (a + k) * 1000) := by
  have h1 : (2 : Nat) ^ (a + 0) * 1000 = 2 ^ a * 1000 := by rw [Nat.add_zero]
  have h2 : (List.range fuel).map ((fun k => (2 : Nat) ^ (a + k) * 1000) ∘ Nat.succ) =
      (List.range fuel).map (fun k => 2 ^ (a + 1 + k) * 1000) := by
    refine List.map_congr_left ?_
    intro k _
    simp only [Function.comp_apply]
    have hexp : a + Nat.succ k = a + 1 + k := by omega
    rw [hexp]
  rw [List.range_succ_eq_map, List.map_cons, List.map_map, h1, h2]

/-- On an always-retryable transport the file-manager loop consumes all
    its fuel, sleeping `2^a, 2^(a+1), ...` units, and throws the wrapped
    last failure. -/
theorem mrwrAux_exhaust (code : Nat) (body : String) (maxR : Nat)
    (h : code = 429 ∨ 500 ≤ code) :
    ∀ fuel a le, mrwrAux (fun _ => .response code body) maxR fuel a le =
      ⟨.error (.apiError ("Request failed after " ++ toString maxR ++ " retries: "
        ++ jsOrElse (if fuel = 0 then le
            else some ("HTTP " ++ toString code ++ ": " ++ body)) "Unknown error") 0),
       fuel, (List.range fuel).map (fun k => 2 ^ (a + k) * 1000)⟩ := by
  have hns : ¬ (200 ≤ code ∧ code < 300) := by rcases h with h | h <;> omega
  intro fuel
  induction fuel with
  | zero => intro a le; simp [mrwrAux]
  | succ fuel ih =>
    intro a le
    have hstep : mrwrAux (fun _ => .response code body) maxR (fuel + 1) a le =
        (let r := mrwrAux (fun _ => .response code body) maxR fuel (a + 1)
            (some ("HTTP " ++ toString code ++ ": " ++ body))
         ⟨r.result, r.attempts + 1, 2 ^ a * 1000 :: r.sleeps⟩) := by
      simp only [mrwrAux]
      rw [if_neg hns, if_pos h]
    rw [hstep, ih (a + 1) (some ("HTTP " ++ toString code ++ ": " ++ body)),
      if_neg (Nat.succ_ne_zero fuel), ite_self]
    simp only [range_pow_shift]

/-- On an always-retryable transport the generation loop consumes all
    its fuel, sleeping `2^a, 2^(a+1), ...` units, and throws the wrapped
    last failure. -/
theorem makeRequestAux_exhaust (code : Nat) (body : String)
    (parse : String → Except String JsValue) (maxR : Nat)
    (h : code = 429 ∨ 500 ≤ code) :
    ∀ fuel a le, makeRequestAux (fun _ => .response code body) parse maxR fuel a le =
      ⟨.error (.apiError ("Request failed after " ++ toString maxR ++ " retries: "
        ++ jsOrElse (if fuel = 0 then le
            else some ("API request failed (" ++ toString code ++ "): " ++ errMsgOf parse body))
          "Unknown error"
        ++ ". This could be due to rate limits or service outages. Please try again later.") 0),
       fuel, (List.range fuel).map (fun k => 2 ^ (a + k) * 1000)⟩ := by
  have h200 : ¬ code = 200 := by rcases h with h | h <;> omega
  intro fuel
  induction fuel with
  | zero => intro a le; simp [makeRequestAux]
  | succ fuel ih =>
    intro a le
    have hstep : makeRequestAux (fun _ => .response code body) parse maxR (fuel + 1) a le =
        (let r := makeRequestAux (fun _ => .response code body) parse maxR fuel (a + 1)
            (some ("API request failed (" ++ toString code ++ "): " ++ errMsgOf parse body))
         ⟨r.result, r.attempts + 1, 2 ^ a * 1000 :: r.sleeps⟩) := by
      simp only [makeRequestAux]
      rw [if_neg h200, if_pos h]
    rw [hstep, ih (a + 1)
      (some ("API request failed (" ++ toString code ++ "): " ++ errMsgOf parse body)),
      if_neg (Nat.succ_ne_zero fuel), ite_self]
    simp only [range_pow_shift]

theorem jsOrElse_of_ne (s d : String) (h : s ≠ "") : jsOrElse (some s) d = s := by
  simp [jsOrElse, h]

/-- One retryable step of the generation loop. -/
theorem makeRequestAux_step_retry (fetch : Nat → FetchOutcome)
    (parse : String → Except String JsValue) (maxR fuel a : Nat) (le : Option String)
    (code : Nat) (body : String)
    (hf : fetch a = .response code body) (h200 : ¬ code = 200)
    (hr : code = 429 ∨ 500 ≤ code) :
    makeRequestAux fetch parse maxR (fuel + 1) a le =
      (let r := makeRequestAux fetch parse maxR fuel (a + 1)
          (some ("API request failed (" ++ toString code ++ "): " ++ errMsgOf parse body))
       ⟨r.result, r.attempts + 1, 2 ^ a * 1000 :: r.sleeps⟩) := by
  simp only [makeRequestAux, hf]
  rw [if_neg h200, if_pos hr]

/-- One successful step of the generation loop. -/
theorem makeRequestAux_step_success (fetch : Nat → FetchOutcome)
    (parse : String → Except String JsValue) (maxR fuel a : Nat) (le : Option String)
    (body : String) (v : JsValue)
    (hf : fetch a = .response 200 body) (hp : parse body = .ok v) :
    makeRequestAux fetch parse maxR (fuel + 1) a le = ⟨.ok v, 1, []⟩ := by
  simp only [makeRequestAux, hf]
  simp [hp]

/-- One non-retryable step of the generation loop: the wrapped error is
    thrown at once. -/
theorem makeRequestAux_step_nonretry (fetch : Nat → FetchOutcome)
    (parse : String → Except String JsValue) (maxR fuel a : Nat) (le : Option String)
    (code : Nat) (body : String)
    (hf : fetch a = .response code body) (h200 : ¬ code = 200)
    (hnr : ¬ (code = 429 ∨ 500 ≤ code)) :
    makeRequestAux fetch parse maxR (fuel + 1) a le =
      ⟨.error (.apiError ("API request failed (" ++ toString code ++ "): "
        ++ errMsgOf parse body
        ++ ". Please check your request parameters and API key.") code), 1, []⟩ := by
  simp only [makeRequestAux, hf]
  rw [if_neg h200, if_neg hnr]

-- ============================================================================
-- C3: two 500s then a 200 — three attempts, backoff 1s then 2s
-- ============================================================================

/-- C3: a transport answering 500, 500, 200 makes both retry wrappers
    perform exactly 3 attempts with blocking waits of 1000 ms then
    2000 ms and return the successful response; and in any run of either
    wrapper the i-th recorded wait is `2 ^ i` seconds. -/
theorem retry_backoff_three_attempts (b1 b2 b3 : String)
    (parse : String → Except String JsValue) (v : JsValue)
    (hp : parse b3 = .ok v) :
    (makeRequestWithRetry (fun i => if i = 0 then .response 500 b1
        else if i = 1 then .response 500 b2 else .response 200 b3) 5 =
      ⟨.ok ⟨200, b3⟩, 3, [1000, 2000]⟩)
    ∧ (makeRequest (fun i => if i = 0 then .response 500 b1
        else if i = 1 then .response 500 b2 else .response 200 b3) parse =
      ⟨.ok v, 3, [1000, 2000]⟩)
    ∧ (∀ fetch i d, (makeRequestWithRetry fetch 5).sleeps.get? i = some d →
      d = 2 ^ i * 1000)
    ∧ (∀ fetch p i d, (makeRequest fetch p).sleeps.get? i = some d →
      d = 2 ^ i * 1000) := by
  refine ⟨rfl, ?_, ?_, ?_⟩
  · have h2 : ∀ le, makeRequestAux (fun i => if i = 0 then .response 500 b1
        else if i = 1 then .response 500 b2 else .response 200 b3) parse 5 4 1 le =
        ⟨.ok v, 2, [2000]⟩ := by
      intro le
      show makeRequestAux _ parse 5 (3 + 1) 1 le = _
      rw [makeRequestAux_step_retry _ parse 5 3 1 le 500 b2 rfl (by decide) (by decide)]
      rw [makeRequestAux_step_success _ parse 5 2 2 _ b3 v rfl hp]
      rfl
    show makeRequestAux _ parse 5 (4 + 1) 0 none = _
    rw [makeRequestAux_step_retry _ parse 5 4 0 none 500 b1 rfl (by decide) (by decide)]
    rw [h2 _]
    rfl
  · intro fetch i d hsl
    have hd := mrwrAux_sleeps fetch 5 5 0 none i d hsl
    rwa [Nat.zero_add] at hd
  · intro fetch p i d hsl
    have hd := makeRequestAux_sleeps fetch p 5 5 0 none i d hsl
    rwa [Nat.zero_add] at hd

/-- C3 witness: concrete bodies and parser. -/
theorem retry_backoff_three_attempts_witness :
    (makeRequestWithRetry (fun i => if i = 0 then .response 500 "e1"
        else if i = 1 then .response 500 "e2" else .response 200 "\x7b\x7d") 5 =
      ⟨.ok ⟨200, "\x7b\x7d"⟩, 3, [1000, 2000]⟩)
    ∧ (makeRequest (fun i => if i = 0 then .response 500 "e1"
        else if i = 1 then .response 500 "e2" else .response 200 "\x7b\x7d")
        (fun _ => .ok (.jobj [])) =
      ⟨.ok (.jobj []), 3, [1000, 2000]⟩) :=
  ⟨(retry_backoff_three_attempts "e1" "e2" "\x7b\x7d" (fun _ => .ok (.jobj []))
      (.jobj []) rfl).1,
   (retry_backoff_three_attempts "e1" "e2" "\x7b\x7d" (fun _ => .ok (.jobj []))
      (.jobj []) rfl).2.1⟩

-- ============================================================================
-- C4: always-retryable transport — exactly maxRetries attempts, then throw
-- ============================================================================

/-- C4: a transport that always answers a retryable status (429 or 5xx)
    makes the file-manager wrapper perform exactly the configured number
    of attempts (default 5) and then throw an API error wrapping the
    last observed status and body; the generation wrapper does the same
    with its hardcoded 5 attempts. -/
theorem retry_exhaustion_attempts (code : Nat) (body : String) (maxR : Nat)
    (parse : String → Except String JsValue)
    (h : code = 429 ∨ 500 ≤ code) :
    ((makeRequestWithRetry (fun _ => .response code body) maxR).attempts = maxR)
    ∧ (1 ≤ maxR →
      makeRequestWithRetry (fun _ => .response code body) maxR =
        ⟨.error (.apiError ("Request failed after " ++ toString maxR ++ " retries: "
          ++ ("HTTP " ++ toString code ++ ": " ++ body)) 0),
         maxR, (List.range maxR).map (fun k => 2 ^ k * 1000)⟩)
    ∧ ((makeRequest (fun _ => .response code body) parse).attempts = 5)
    ∧ (makeRequest (fun _ => .response code body) parse =
        ⟨.error (.apiError ("Request failed after " ++ toString 5 ++ " retries: "
          ++ ("API request failed (" ++ toString code ++ "): " ++ errMsgOf parse body)
          ++ ". This could be due to rate limits or service outages. Please try again later.") 0),
         5, [1000, 2000, 4000, 8000, 16000]⟩) := by
  have hne1 : ("HTTP " ++ toString code ++ ": " ++ body) ≠ "" := by
    apply prefixed_ne_empty
    rw [String.length_append, String.length_append]
    have h5 : ("HTTP ").length = 5 := rfl
    omega
  have hne2 : ("API request failed (" ++ toString code ++ "): " ++ errMsgOf parse body) ≠ "" := by
    apply prefixed_ne_empty
    rw [String.length_append, String.length_append]
    have h20 : ("API request failed (").length = 20 := rfl
    omega
  refine ⟨?_, ?_, ?_, ?_⟩
  · show (mrwrAux _ maxR maxR 0 none).attempts = maxR
    rw [mrwrAux_exhaust code body maxR h maxR 0 none]
  · intro h1
    show mrwrAux _ maxR maxR 0 none = _
    rw [mrwrAux_exhaust code body maxR h maxR 0 none,
      if_neg (by omega : ¬ maxR = 0), jsOrElse_of_ne _ _ hne1]
    simp only [Nat.zero_add]
  · show (makeRequestAux _ parse 5 5 0 none).attempts = 5
    rw [makeRequestAux_exhaust code body parse 5 h 5 0 none]
  · show makeRequestAux _ parse 5 5 0 none = _
    rw [makeRequestAux_exhaust code body parse 5 h 5 0 none,
      if_neg (by omega : ¬ (5 : Nat) = 0), jsOrElse_of_ne _ _ hne2]
    simp only [Nat.zero_add]
    rfl

/-- C4 witness: the always-503 transport of the spec. -/
theorem retry_exhaustion_attempts_witness :
    makeRequestWithRetry (fun _ => .response 503 "overloaded") 5 =
      ⟨.error (.apiError ("Request failed after " ++ toString 5 ++ " retries: "
        ++ ("HTTP " ++ toString 503 ++ ": " ++ "overloaded")) 0),
       5, (List.range 5).map (fun k => 2 ^ k * 1000)⟩ :=
  (retry_exhaustion_attempts 503 "overloaded" 5 (fun _ => .error "u")
    (Or.inr (by omega))).2.1 (by omega)

-- ============================================================================
-- C5: non-retryable status — one attempt, no sleep
-- ============================================================================

/-- C5: any non-retryable status (a 4xx other than 429) is settled
    after exactly one attempt with no backoff wait: the file-manager
    wrapper returns the failed response to its caller, the generation
    wrapper throws the wrapped API error carrying that status. -/
theorem retry_non_retryable_immediate (code : Nat) (body : String)
    (parse : String → Except String JsValue)
    (h4 : 400 ≤ code) (h5 : code < 500) (h429 : code ≠ 429) :
    makeRequestWithRetry (fun _ => .response code body) 5 = ⟨.ok ⟨code, body⟩, 1, []⟩
    ∧ makeRequest (fun _ => .response code body) parse =
      ⟨.error (.apiError ("API request failed (" ++ toString code ++ "): "
        ++ errMsgOf parse body
        ++ ". Please check your request parameters and API key.") code), 1, []⟩ := by
  have hns : ¬ (200 ≤ code ∧ code < 300) := by omega
  have hnr : ¬ (code = 429 ∨ 500 ≤ code) := by omega
  have h200 : ¬ code = 200 := by omega
  constructor
  · show mrwrAux _ 5 (4 + 1) 0 none = _
    simp only [mrwrAux]
    rw [if_neg hns, if_neg hnr]
  · exact makeRequestAux_step_nonretry (fun _ => .response code body) parse 5 4 0 none
      code body rfl h200 hnr

/-- C5 witness: the 404 transport of the spec. -/
theorem retry_non_retryable_immediate_witness :
    makeRequestWithRetry (fun _ => .response 404 "nf") 5 = ⟨.ok ⟨404, "nf"⟩, 1, []⟩
    ∧ makeRequest (fun _ => .response 404 "nf") (fun _ => .error "bad") =
      ⟨.error (.apiError ("API request failed (" ++ toString 404 ++ "): "
        ++ errMsgOf (fun _ => .error "bad") "nf"
        ++ ". Please check your request parameters and API key.") 404), 1, []⟩ :=
  retry_non_retryable_immediate 404 "nf" (fun _ => .error "bad")
    (by omega) (by omega) (by omega)

-- ============================================================================
-- Chat session lemmas
-- ============================================================================

theorem userModelPattern_length (n : Nat) :
    (userModelPattern n).length = 2 * n := by
  induction n with
  | zero => rfl
  | succ n ih =>
    simp only [userModelPattern, List.length_cons, ih]
    omega

/-- A sendMessage call whose transport yields model-role first-candidate
    content appends exactly one user turn and one model turn. -/
theorem chatSendMessage_history_model
    (parse : String → Except String JsValue)
    (net : RequestBody → Except GeminiError GenResponse)
    (st : ChatState) (parts : List ContentPart) (schema : Option JsValue)
    (h : ∀ req, respModelContent (net req) = true) :
    ∃ ct : Content, ct.role = "model" ∧
      (chatSendMessage parse net st parts schema).1.history =
        st.history ++ [⟨"user", parts⟩, ct] := by
  have hr := h (buildChatRequest (st.history ++ [⟨"user", parts⟩]) st.systemInstruction schema)
  cases hnet : net (buildChatRequest (st.history ++ [⟨"user", parts⟩])
      st.systemInstruction schema) with
  | error e =>
    rw [hnet] at hr
    simp [respModelContent] at hr
  | ok r =>
    rw [hnet] at hr
    cases hcand : r.candidates with
    | none => simp [respModelContent, hcand] at hr
    | some lst =>
      cases lst with
      | nil => simp [respModelContent, hcand] at hr
      | cons c rest =>
        cases hct : c.content with
        | none => simp [respModelContent, hcand, hct] at hr
        | some ct =>
          have hrole : ct.role = "model" := by
            simp only [respModelContent, hcand, hct] at hr
            exact eq_of_beq hr
          refine ⟨ct, hrole, ?_⟩
          simp [chatSendMessage, hnet, hcand, hct]

/-- Under the model-content condition, a whole run of sendMessage calls
    extends the history by pairs of user/model turns. -/
theorem runChat_model_content (parse : String → Except String JsValue) :
    ∀ (calls : List ChatCall) (st : ChatState),
      (∀ call ∈ calls, ∀ req, respModelContent (call.net req) = true) →
      ∃ ext, (runChat parse st calls).1.history = st.history ++ ext
        ∧ ext.map (fun c => c.role) = userModelPattern calls.length := by
  intro calls
  induction calls with
  | nil =>
    intro st h
    exact ⟨[], by simp [runChat], by simp [userModelPattern]⟩
  | cons call rest ih =>
    intro st h
    have hc := h call (List.mem_cons_self _ _)
    obtain ⟨ct, hrole, hh⟩ :=
      chatSendMessage_history_model parse call.net st call.parts call.schema hc
    obtain ⟨ext, hext, hmap⟩ :=
      ih (chatSendMessage parse call.net st call.parts call.schema).1
        (fun c hcm req => h c (List.mem_cons_of_mem _ hcm) req)
    refine ⟨[⟨"user", call.parts⟩, ct] ++ ext, ?_, ?_⟩
    · have hrun : (runChat parse st (call :: rest)).1 =
          (runChat parse (chatSendMessage parse call.net st call.parts call.schema).1 rest).1 := by
        simp [runChat]
      rw [hrun, hext, hh, List.append_assoc]
    · simp only [List.map_append, List.map_cons, List.map_nil, hmap, hrole,
        List.length_cons, userModelPattern]
      rfl

/-- Every sendMessage call only appends to the history, whatever the
    transport does. -/
theorem chatSendMessage_extends
    (parse : String → Except String JsValue)
    (net : RequestBody → Except GeminiError GenResponse)
    (st : ChatState) (parts : List ContentPart) (schema : Option JsValue) :
    ∃ ext, (chatSendMessage parse net st parts schema).1.history = st.history ++ ext := by
  cases hnet : net (buildChatRequest (st.history ++ [⟨"user", parts⟩])
      st.systemInstruction schema) with
  | error e => exact ⟨[⟨"user", parts⟩], by simp [chatSendMessage, hnet]⟩
  | ok r =>
    cases hcand : r.candidates with
    | none => exact ⟨[⟨"user", parts⟩], by simp [chatSendMessage, hnet, hcand]⟩
    | some lst =>
      cases lst with
      | nil => exact ⟨[⟨"user", parts⟩], by simp [chatSendMessage, hnet, hcand]⟩
      | cons c rest =>
        cases hct : c.content with
        | none => exact ⟨[⟨"user", parts⟩], by simp [chatSendMessage, hnet, hcand, hct]⟩
        | some ct =>
          exact ⟨[⟨"user", parts⟩, ct], by simp [chatSendMessage, hnet, hcand, hct]⟩

/-- A whole run only appends to the history. -/
theorem runChat_extends (parse : String → Except String JsValue) :
    ∀ (calls : List ChatCall) (st : ChatState),
      ∃ ext, (runChat parse st calls).1.history = st.history ++ ext := by
  intro calls
  induction calls with
  | nil => intro st; exact ⟨[], by simp [runChat]⟩
  | cons call rest ih =>
    intro st
    obtain ⟨e1, he1⟩ := chatSendMessage_extends parse call.net st call.parts call.schema
    obtain ⟨e2, he2⟩ := ih (chatSendMessage parse call.net st call.parts call.schema).1
    refine ⟨e1 ++ e2, ?_⟩
    have hrun : (runChat parse st (call :: rest)).1 =
        (runChat parse (chatSendMessage parse call.net st call.parts call.schema).1 rest).1 := by
      simp [runChat]
    rw [hrun, he2, he1, List.append_assoc]

/-- Running a split call sequence is running the pieces in order. -/
theorem runChat_append_split (parse : String → Except String JsValue) :
    ∀ (l1 l2 : List ChatCall) (st : ChatState),
      (runChat parse st (l1 ++ l2)).1 = (runChat parse (runChat parse st l1).1 l2).1 := by
  intro l1
  induction l1 with
  | nil => intro l2 st; simp [runChat]
  | cons call rest ih =>
    intro l2 st
    simp only [List.cons_append, runChat]
    exact ih l2 _

-- ============================================================================
-- C2 (corrected): history length and alternation
-- ============================================================================

/-- C2 counterexample: a sendMessage call that succeeds (the transport
    answered 200 with a STOP candidate carrying no content) yet appends
    no model turn, so the history of a fresh session has length 1, not
    2·1, after one successful call. -/
theorem chat_history_counterexample :
    (runChat (fun _ => .error "unused") (startChat none none)
      [⟨[.textPart "hi"], none, fun _ => .ok ⟨none, some [⟨none, some "STOP", none⟩]⟩⟩]).2 =
      [.ok (.text "")]
    ∧ (getHistory (runChat (fun _ => .error "unused") (startChat none none)
      [⟨[.textPart "hi"], none, fun _ => .ok ⟨none, some [⟨none, some "STOP", none⟩]⟩⟩]).1).length = 1
    ∧ ¬ ((getHistory (runChat (fun _ => .error "unused") (startChat none none)
      [⟨[.textPart "hi"], none, fun _ => .ok ⟨none, some [⟨none, some "STOP", none⟩]⟩⟩]).1).length
        = 2 * 1) :=
  ⟨rfl, rfl, by decide⟩

/-- C2 (amended): on a fresh session, for any sequence of sendMessage
    calls in which every transport response carries first-candidate
    content with role model (as every successful well-formed exchange
    does), the history has length exactly 2·N, its roles alternate
    user, model, user, model, ..., and turns are only ever appended at
    the end, never reordered. -/
theorem chat_history_even_alternating (parse : String → Except String JsValue)
    (si : Option String) (calls : List ChatCall)
    (h : ∀ call ∈ calls, ∀ req, respModelContent (call.net req) = true) :
    (getHistory (runChat parse (startChat none si) calls).1).length = 2 * calls.length
    ∧ (getHistory (runChat parse (startChat none si) calls).1).map (fun c => c.role) =
      userModelPattern calls.length
    ∧ (∀ n, ∃ ext, getHistory (runChat parse (startChat none si) calls).1 =
        getHistory (runChat parse (startChat none si) (calls.take n)).1 ++ ext) := by
  obtain ⟨ext, hext, hmap⟩ := runChat_model_content parse calls (startChat none si) h
  have hhist : getHistory (runChat parse (startChat none si) calls).1 = ext := by
    simpa [getHistory, startChat] using hext
  refine ⟨?_, ?_, ?_⟩
  · rw [hhist]
    have hl : (ext.map (fun c => c.role)).length = (userModelPattern calls.length).length := by
      rw [hmap]
    rw [List.length_map, userModelPattern_length] at hl
    exact hl
  · rw [hhist]
    exact hmap
  · intro n
    have hsplit := runChat_append_split parse (calls.take n) (calls.drop n) (startChat none si)
    rw [List.take_append_drop] at hsplit
    obtain ⟨ext2, hext2⟩ :=
      runChat_extends parse (calls.drop n) (runChat parse (startChat none si) (calls.take n)).1
    refine ⟨ext2, ?_⟩
    show (runChat parse (startChat none si) calls).1.history = _
    rw [hsplit, hext2]
    rfl

/-- C2 witness: one well-formed exchange on a fresh session. -/
theorem chat_history_even_alternating_witness :
    (getHistory (runChat (fun _ => .error "u") (startChat none none) [c2Call]).1).length = 2
    ∧ (getHistory (runChat (fun _ => .error "u") (startChat none none) [c2Call]).1).map
        (fun c => c.role) = ["user", "model"] := by
  have h := chat_history_even_alternating (fun _ => .error "u") none [c2Call]
    (by
      intro call hcm req
      simp only [List.mem_singleton] at hcm
      subst hcm
      rfl)
  exact ⟨h.1, h.2.1⟩

-- ============================================================================
-- C10 (corrected): no rollback; model turn appended iff content returned
-- ============================================================================

/-- C10 counterexample: a sendMessage call that raises (unparseable
    structured JSON) after the response carried first-candidate content
    leaves an even-length history whose last turn is the model turn, so
    "after such a failed call the history length is odd and a user turn
    is last" is false as stated. -/
theorem chat_failed_call_counterexample :
    c10Run.2 = .error (.apiError
        "Failed to parse JSON response: Unexpected token. Response text: not json..." 500)
    ∧ c10Run.1.history.length = 2
    ∧ ¬ (c10Run.1.history.length % 2 = 1)
    ∧ c10Run.1.history.getLast?.map (fun c => c.role) = some "model" :=
  ⟨rfl, rfl, by decide, rfl⟩

/-- C10 (amended): the user turn is appended and retained whatever the
    call outcome (no rollback), and a model turn is appended exactly
    when the transport returned a response whose first candidate carries
    content — even though the call may still raise afterwards; hence
    when the transport failed or returned no first-candidate content,
    the history gains exactly the user turn, which is then last. -/
theorem chat_append_no_rollback (parse : String → Except String JsValue)
    (net : RequestBody → Except GeminiError GenResponse)
    (st : ChatState) (parts : List ContentPart) (schema : Option JsValue) :
    ((chatSendMessage parse net st parts schema).1.history =
      (st.history ++ [⟨"user", parts⟩])
        ++ modelAppend (net (buildChatRequest (st.history ++ [⟨"user", parts⟩])
            st.systemInstruction schema)))
    ∧ (modelAppend (net (buildChatRequest (st.history ++ [⟨"user", parts⟩])
          st.systemInstruction schema)) = [] →
      (chatSendMessage parse net st parts schema).1.history = st.history ++ [⟨"user", parts⟩]
      ∧ (chatSendMessage parse net st parts schema).1.history.getLast? =
        some ⟨"user", parts⟩) := by
  have ha : (chatSendMessage parse net st parts schema).1.history =
      (st.history ++ [⟨"user", parts⟩])
        ++ modelAppend (net (buildChatRequest (st.history ++ [⟨"user", parts⟩])
            st.systemInstruction schema)) := by
    cases hnet : net (buildChatRequest (st.history ++ [⟨"user", parts⟩])
        st.systemInstruction schema) with
    | error e => simp [chatSendMessage, modelAppend, hnet]
    | ok r =>
      cases hcand : r.candidates with
      | none => simp [chatSendMessage, modelAppend, hnet, hcand]
      | some lst =>
        cases lst with
        | nil => simp [chatSendMessage, modelAppend, hnet, hcand]
        | cons c rest =>
          cases hct : c.content with
          | none => simp [chatSendMessage, modelAppend, hnet, hcand, hct]
          | some ct => simp [chatSendMessage, modelAppend, hnet, hcand, hct]
  refine ⟨ha, ?_⟩
  intro hempty
  rw [ha, hempty, List.append_nil]
  exact ⟨rfl, List.getLast?_concat _⟩

/-- C10 witness: a transport failure leaves exactly the user turn, last. -/
theorem chat_append_no_rollback_witness :
    (chatSendMessage (fun _ => .error "u") c10ErrNet (startChat none none)
      [.textPart "hi"] none).1.history = [⟨"user", [.textPart "hi"]⟩]
    ∧ (chatSendMessage (fun _ => .error "u") c10ErrNet (startChat none none)
      [.textPart "hi"] none).1.history.getLast? = some ⟨"user", [.textPart "hi"]⟩ := by
  have h := (chat_append_no_rollback (fun _ => .error "u") c10ErrNet (startChat none none)
    [.textPart "hi"] none).2 rfl
  exact ⟨by simpa using h.1, h.2⟩
